import Mathlib

/-!
# AutoSOC dashboard: a shallow embedding of `src/files/App.jsx`

The file embeds the presentational components of the dashboard
(`RiskGauge`, `AlertRow`, `ComplianceBadge`), the hard-coded snapshot
`MOCK_OVERVIEW`, and the view controller of `AutoSOCDashboard` (tab selection,
the attack-source bars and the two timers of the mount effect), and proves
properties of them.

Modelling conventions.

* A component is a function from its props to a record holding the derived
  values it puts into the rendered tree (angles, colours, captions); the
  constant styling around them is not part of the record.
* The needle angle of `RiskGauge` (line 79) is embedded twice: `needleAngle`
  evaluates the expression in IEEE 754 binary64 arithmetic, one rounding to
  nearest (ties to even) per operation, and `RiskGaugeView.angle` is the exact
  rational value of the same expression; on scores in [0, 100] the two differ
  by at most `2 ^ (-44)`.  The bar widths are exact rationals.  Fields the data
  model types as non-negative integers (`count`, `events`, ...) are `Nat`.
* JavaScript strings are `String`, and `===` / `!==` on strings is equality.
* A property read `obj[key]` on an object literal first looks at the own
  properties written in the literal and then at the members every object
  literal inherits from `Object.prototype`; `JSValue` keeps the three possible
  outcomes apart.
* `setInterval` and `clearInterval` act on an explicit timer table of the host:
  a call of `setInterval` returns a handle no pending timer carries.
-/

namespace AutoSOC

/-! ## JavaScript values and property lookup -/

/-- Outcome of a property read on an object literal whose own properties are
strings: an own string, a member inherited from `Object.prototype` (a function
or an object, never a string), or `undefined`. -/
inductive JSValue where
  | str (s : String)
  | inherited (name : String)
  | undefined
  deriving DecidableEq, Repr

/-- Property names every object literal inherits from `Object.prototype`
(ECMAScript, Annex B accessors included). -/
def objectPrototypeKeys : List String :=
  ["constructor", "hasOwnProperty", "isPrototypeOf", "propertyIsEnumerable",
   "toLocaleString", "toString", "valueOf", "__proto__",
   "__defineGetter__", "__defineSetter__", "__lookupGetter__", "__lookupSetter__"]

/-- Own property of an object literal, given as its key/value pairs in order. -/
def ownProperty : List (String × String) → String → Option String
  | [], _ => none
  | (k, v) :: rest, key => if key = k then some v else ownProperty rest key

/-- The read `obj[key]`: own properties first, then the prototype chain. -/
def getProperty (obj : List (String × String)) (key : String) : JSValue :=
  match ownProperty obj key with
  | some v => JSValue.str v
  | none => if key ∈ objectPrototypeKeys then JSValue.inherited key else JSValue.undefined

/-- JavaScript truthiness: the empty string and `undefined` are falsy. -/
def JSValue.truthy : JSValue → Bool
  | JSValue.str s => s != ""
  | JSValue.inherited _ => true
  | JSValue.undefined => false

/-- The operator `a || b`. -/
def JSValue.orElse (a b : JSValue) : JSValue :=
  if a.truthy then a else b

/-! ## IEEE 754 binary64 numbers

JavaScript numbers are binary64 values.  A finite value is kept as the rational
it denotes (the two zeros are one value: they compare equal and print alike);
every arithmetic operation computes the exact result and rounds it once. -/

/-- Rounding of a rational to the nearest integer, ties to the even one. -/
def roundHalfEven (y : ℚ) : ℤ :=
  if y - ⌊y⌋ < 1 / 2 then ⌊y⌋
  else if 1 / 2 < y - ⌊y⌋ then ⌊y⌋ + 1
  else if ⌊y⌋ % 2 = 0 then ⌊y⌋ else ⌊y⌋ + 1

/-- Spacing of the binary64 values around a magnitude `y`: `2 ^ (e - 52)` for
`2 ^ e ≤ y < 2 ^ (e + 1)` (53 significant bits), and the subnormal spacing
`2 ^ (-1074)` below `2 ^ (-1022)`. -/
def ulp (y : ℚ) : ℚ :=
  (2 : ℚ) ^ (max (Int.log 2 y) (-1022) - 52)

/-- Rounding of a magnitude `y ≥ 0` to a whole number of spacings. -/
def roundMagnitude (y : ℚ) : ℚ :=
  (roundHalfEven (y / ulp y) : ℚ) * ulp y

/-- Rounding to nearest, ties to even, with unbounded exponent: the sign is
kept and the magnitude is rounded. -/
def roundFinite (x : ℚ) : ℚ :=
  if 0 ≤ x then roundMagnitude x else -roundMagnitude (-x)

/-- The largest finite binary64 value, `(2 ^ 53 - 1) * 2 ^ 971`. -/
def maxFinite : ℚ := (2 ^ 53 - 1) * 2 ^ 971

/-- A JavaScript number: a finite value, an infinity or `NaN`. -/
inductive F64 where
  | finite (q : ℚ)
  | posInf
  | negInf
  | nan
  deriving DecidableEq

/-- The binary64 result of an operation whose exact result is `x`: the rounded
value, or an infinity when the rounded value exceeds the largest finite one. -/
def F64.ofRat (x : ℚ) : F64 :=
  if maxFinite < roundFinite x then F64.posInf
  else if roundFinite x < -maxFinite then F64.negInf
  else F64.finite (roundFinite x)

/-- The operation `a / c` for a finite constant `c > 0`. -/
def F64.divConst (a : F64) (c : ℚ) : F64 :=
  match a with
  | F64.finite x => F64.ofRat (x / c)
  | F64.posInf => F64.posInf
  | F64.negInf => F64.negInf
  | F64.nan => F64.nan

/-- The operation `a * c` for a finite constant `c > 0`. -/
def F64.mulConst (a : F64) (c : ℚ) : F64 :=
  match a with
  | F64.finite x => F64.ofRat (x * c)
  | F64.posInf => F64.posInf
  | F64.negInf => F64.negInf
  | F64.nan => F64.nan

/-- The operation `a - c` for a finite constant `c`. -/
def F64.subConst (a : F64) (c : ℚ) : F64 :=
  match a with
  | F64.finite x => F64.ofRat (x - c)
  | F64.posInf => F64.posInf
  | F64.negInf => F64.negInf
  | F64.nan => F64.nan

/-! ## Design system (lines 8-29) -/

namespace colors

def bg : String := "#050B14"
def surface : String := "#0A1628"
def border : String := "#0F2544"
def accent : String := "#00D4FF"
def accentDim : String := "#0099BB"
def critical : String := "#FF3B30"
def high : String := "#FF9F0A"
def medium : String := "#FFD60A"
def low : String := "#30D158"
def text : String := "#E8F4FD"
def textDim : String := "#6B8CAE"
def grid : String := "#0D1F3A"

end colors

def SEVERITY_COLORS : List (String × String) :=
  [("critical", colors.critical),
   ("high", colors.high),
   ("medium", colors.medium),
   ("low", colors.low),
   ("info", colors.textDim)]

/-! ## Data model and the hard-coded snapshot (lines 32-74) -/

structure SummaryStats where
  total_events_today : Nat
  threats_detected_today : Nat
  threats_auto_blocked : Nat
  endpoints_monitored : Nat
  uptime_percent : ℚ

structure Compliance where
  hipaa : String
  soc2 : String
  pci_dss : String

structure DayPoint where
  date : String
  events : Nat
  threats : Nat
  blocked : Nat

structure Alert where
  id : String
  time : String
  type : String
  severity : String
  source_ip : String
  status : String

structure SourceCount where
  country : String
  count : Nat
  flag : String

structure CategoryShare where
  name : String
  count : Nat
  percent : Nat

structure Snapshot where
  risk_score : ℚ
  risk_level : String
  summary : SummaryStats
  compliance : Compliance
  daily_trend : List DayPoint
  recent_alerts : List Alert
  top_attack_sources : List SourceCount
  threat_categories : List CategoryShare

def MOCK_OVERVIEW : Snapshot where
  risk_score := 24
  risk_level := "low"
  summary :=
    { total_events_today := 2847
      threats_detected_today := 3
      threats_auto_blocked := 2
      endpoints_monitored := 47
      uptime_percent := 999 / 10 }
  compliance := { hipaa := "compliant", soc2 := "compliant", pci_dss := "action_needed" }
  daily_trend :=
    [ { date := "Mon", events := 2100, threats := 2, blocked := 2 },
      { date := "Tue", events := 1850, threats := 0, blocked := 0 },
      { date := "Wed", events := 2400, threats := 5, blocked := 4 },
      { date := "Thu", events := 1920, threats := 1, blocked := 1 },
      { date := "Fri", events := 2780, threats := 3, blocked := 2 },
      { date := "Sat", events := 980, threats := 0, blocked := 0 },
      { date := "Sun", events := 1240, threats := 1, blocked := 1 } ]
  recent_alerts :=
    [ { id := "a1", time := "2 min ago", type := "Brute Force Attack", severity := "critical",
        source_ip := "185.220.101.45", status := "blocked" },
      { id := "a2", time := "14 min ago", type := "Port Scan Detected", severity := "high",
        source_ip := "91.195.240.117", status := "blocked" },
      { id := "a3", time := "1 hr ago", type := "Phishing Email", severity := "medium",
        source_ip := "N/A", status := "quarantined" },
      { id := "a4", time := "2 hrs ago", type := "Suspicious Login", severity := "medium",
        source_ip := "192.168.1.45", status := "investigating" },
      { id := "a5", time := "3 hrs ago", type := "Failed SSH Attempts", severity := "low",
        source_ip := "45.33.32.156", status := "resolved" },
      { id := "a6", time := "5 hrs ago", type := "Malware Signature", severity := "high",
        source_ip := "10.0.0.142", status := "blocked" } ]
  top_attack_sources :=
    [ { country := "Russia", count := 847, flag := "🇷🇺" },
      { country := "China", count := 623, flag := "🇨🇳" },
      { country := "North Korea", count := 312, flag := "🇰🇵" },
      { country := "Iran", count := 201, flag := "🇮🇷" },
      { country := "Unknown", count := 156, flag := "🏴" } ]
  threat_categories :=
    [ { name := "Brute Force", count := 523, percent := 42 },
      { name := "Port Scan", count := 312, percent := 25 },
      { name := "Phishing", count := 187, percent := 15 },
      { name := "Malware", count := 112, percent := 9 },
      { name := "Other", count := 111, percent := 9 } ]

/-! ## Components -/

/-- Derived values of `RiskGauge` (lines 78-106): the angle of the
`rotate(angle, 80, 80)` transform as the exact value of the expression of
line 79 (the binary64 value the code computes is `needleAngle`), the needle
colour, the numeric label and the caption text. -/
structure RiskGaugeView where
  angle : ℚ
  color : JSValue
  label : ℚ
  caption : String

/-- The object literal `levelColors` of `RiskGauge` (line 80). -/
def levelColors : List (String × String) :=
  [("low", colors.low), ("medium", colors.medium), ("high", colors.high),
   ("critical", colors.critical)]

def RiskGauge (score : ℚ) (level : String) : RiskGaugeView :=
  let angle := (score / 100) * 180 - 90
  let color := (getProperty levelColors level).orElse (JSValue.str colors.low)
  { angle := angle, color := color, label := score, caption := level ++ " risk" }

/-- The constant `angle` of `RiskGauge` as the code computes it (line 79):
`(score / 100) * 180 - 90`, evaluated left to right in binary64. -/
def needleAngle (score : F64) : F64 :=
  ((score.divConst 100).mulConst 180).subConst 90

/-- Derived values of `ComplianceBadge` (lines 177-196). -/
structure ComplianceBadgeView where
  name : String
  background : String
  border : String
  color : String
  label : String

def ComplianceBadge (name status : String) : ComplianceBadgeView :=
  let isOk : Bool := decide (status = "compliant")
  { name := name
    background := if isOk then colors.low ++ "11" else colors.high ++ "11"
    border := "1px solid " ++ (if isOk then colors.low else colors.high) ++ "44"
    color := if isOk then colors.low else colors.high
    label := if isOk then "✓ Compliant" else "⚠ Action Needed" }

/-- Derived values of `AlertRow` (lines 133-175): the severity colour `c` of the
indicator dot, the alert title, the value of the source-or-email expression of
line 161 (`sourceLabel`), the whole text of that line (`caption`), and the
background, text colour, border and text of the status badge. -/
structure AlertRowView where
  c : JSValue
  title : String
  sourceLabel : String
  caption : String
  badgeBackground : JSValue
  badgeColor : String
  badgeBorder : String
  badgeText : String

/-- The object literal `statusBg` of `AlertRow` (lines 137-142). -/
def statusBg : List (String × String) :=
  [("blocked", colors.low ++ "22"),
   ("quarantined", colors.medium ++ "22"),
   ("investigating", colors.high ++ "22"),
   ("resolved", colors.textDim ++ "22")]

def AlertRow (alert : Alert) : AlertRowView :=
  let sev := alert.severity
  let c := (getProperty SEVERITY_COLORS sev).orElse (JSValue.str colors.textDim)
  let sourceLabel :=
    if alert.source_ip ≠ "N/A" then "Source: " ++ alert.source_ip else "Email-based"
  { c := c
    title := alert.type
    sourceLabel := sourceLabel
    caption := sourceLabel ++ " · " ++ alert.time
    badgeBackground :=
      (getProperty statusBg alert.status).orElse (JSValue.str (colors.textDim ++ "22"))
    badgeColor :=
      if alert.status = "blocked" then colors.low
      else if alert.status = "quarantined" then colors.medium
      else if alert.status = "investigating" then colors.high
      else colors.textDim
    badgeBorder :=
      "1px solid " ++
        (if alert.status = "blocked" then colors.low
         else if alert.status = "quarantined" then colors.medium
         else colors.textDim) ++ "44"
    badgeText := alert.status }

/-! ## View controller `AutoSOCDashboard` (lines 199-564) -/

structure Tab where
  id : String
  label : String
  icon : String

/-- The array `tabs` (lines 213-218); the nav bar renders one button per entry. -/
def tabs : List Tab :=
  [ { id := "dashboard", label := "Dashboard", icon := "⬡" },
    { id := "alerts", label := "Alerts", icon := "◈" },
    { id := "compliance", label := "Compliance", icon := "◎" },
    { id := "reports", label := "Reports", icon := "≡" } ]

/-- The state cells of the component that change after mount (lines 201-203);
`time` is the clock reading as a timestamp. -/
structure DashboardState where
  activeTab : String
  time : Nat
  pulseOn : Bool
  deriving DecidableEq, Repr

/-- State at mount; `now` is the value of `new Date()`. -/
def initialState (now : Nat) : DashboardState :=
  { activeTab := "dashboard", time := now, pulseOn := true }

/-- The handler `onClick={() => setActiveTab(tab.id)}` of the button rendered
for the `i`-th entry of `tabs` (line 255). -/
def clickTab (s : DashboardState) (i : Fin tabs.length) : DashboardState :=
  { s with activeTab := (tabs.get i).id }

/-- A finite sequence of clicks on tab buttons, oldest first. -/
def clickTabs (s : DashboardState) (clicks : List (Fin tabs.length)) : DashboardState :=
  clicks.foldl clickTab s

/-- The literals the four panel guards `activeTab === "..." && (...)` compare
with, in source order (lines 288, 447, 464, 507). -/
def panelGuards : List String :=
  ["dashboard", "alerts", "compliance", "reports"]

/-- The panels whose guard holds, that is, the panels in the rendered tree. -/
def visiblePanels (s : DashboardState) : List String :=
  panelGuards.filter fun p => decide (s.activeTab = p)

/-- Widths, in percent, of the bars of the "Top Attack Sources" list
(lines 410-427): one per entry, in input order, each normalised by the count
of entry 0.  The body of `map` is not evaluated for the empty list.  For a
first count of 0 JavaScript yields `Infinity` or `NaN` where `ℚ` yields 0; the
theorems below only speak about a positive first count. -/
def attackSourceWidths (top_attack_sources : List SourceCount) : List ℚ :=
  match top_attack_sources with
  | [] => []
  | first :: _ =>
    top_attack_sources.map fun src => ((src.count : ℚ) / (first.count : ℚ)) * 100

/-- The gauge of the dashboard panel (line 303). -/
def dashboardGauge (data : Snapshot) : RiskGaugeView :=
  RiskGauge data.risk_score data.risk_level

/-- The alert rows of the dashboard and alerts panels (lines 397 and 458). -/
def alertRows (data : Snapshot) : List AlertRowView :=
  data.recent_alerts.map AlertRow

/-- The three badges of the dashboard panel (lines 437-439). -/
def complianceBadges (data : Snapshot) : List ComplianceBadgeView :=
  [ ComplianceBadge "HIPAA" data.compliance.hipaa,
    ComplianceBadge "SOC 2" data.compliance.soc2,
    ComplianceBadge "PCI DSS" data.compliance.pci_dss ]

/-- Derived values of one row of the "Top Attack Sources" list
(lines 411-426): the flag, the country, the count shown as text and the bar
width in percent. -/
structure AttackSourceRow where
  flag : String
  country : String
  count : Nat
  width : ℚ

/-- The rows of the "Top Attack Sources" list (lines 410-427), produced by
`map` over the input list as it is; the width of a row is that of
`attackSourceWidths`. -/
def attackSourceRows (top_attack_sources : List SourceCount) : List AttackSourceRow :=
  match top_attack_sources with
  | [] => []
  | first :: _ =>
    top_attack_sources.map fun src =>
      { flag := src.flag
        country := src.country
        count := src.count
        width := ((src.count : ℚ) / (first.count : ℚ)) * 100 }

/-! ## Timers of the mount effect (lines 205-209) -/

/-- The two callbacks handed to `setInterval`: `() => setTime(new Date())` and
`() => setPulseOn(v => !v)`. -/
inductive TimerCallback where
  | setTimeNow
  | togglePulse
  deriving DecidableEq, Repr

/-- A repeating timer registered with the host: its handle, its callback and
its period in milliseconds. -/
structure Interval where
  id : Nat
  callback : TimerCallback
  delay : Nat
  deriving DecidableEq, Repr

/-- The timer table of the host environment: the handle the next `setInterval`
returns and the repeating timers that are pending. -/
structure TimerTable where
  nextId : Nat
  pending : List Interval
  deriving DecidableEq, Repr

/-- A host with no pending timer. -/
def noTimers : TimerTable :=
  { nextId := 1, pending := [] }

/-- The host call `setInterval(callback, delay)`: registers a repeating timer
under a fresh handle and returns the handle. -/
def setInterval (tt : TimerTable) (callback : TimerCallback) (delay : Nat) :
    Nat × TimerTable :=
  (tt.nextId,
   { nextId := tt.nextId + 1
     pending := tt.pending ++ [{ id := tt.nextId, callback := callback, delay := delay }] })

/-- The host call `clearInterval(id)`: cancels the timer with that handle, and
does nothing when there is none. -/
def clearInterval (tt : TimerTable) (id : Nat) : TimerTable :=
  { tt with pending := tt.pending.filter fun x => decide (x.id ≠ id) }

/-- The handles `t` and `p` captured by the teardown closure (line 208). -/
structure EffectCleanup where
  t : Nat
  p : Nat
  deriving DecidableEq, Repr

/-- The body of the effect, run once at mount (lines 206-208): starts the two
timers and returns the teardown closure. -/
def mountEffect (tt : TimerTable) : EffectCleanup × TimerTable :=
  let r1 := setInterval tt TimerCallback.setTimeNow 1000
  let r2 := setInterval r1.2 TimerCallback.togglePulse 1200
  ({ t := r1.1, p := r2.1 }, r2.2)

/-- The teardown `() => { clearInterval(t); clearInterval(p); }`, run at
unmount. -/
def runCleanup (c : EffectCleanup) (tt : TimerTable) : TimerTable :=
  clearInterval (clearInterval tt c.t) c.p

/-- What a timer callback does to the component state when it fires at clock
reading `now`. -/
def fireCallback (cb : TimerCallback) (now : Nat) (s : DashboardState) : DashboardState :=
  match cb with
  | TimerCallback.setTimeNow => { s with time := now }
  | TimerCallback.togglePulse => { s with pulseOn := !s.pulseOn }

/-! ## Theorems -/

/-! ### Binary64 rounding -/

theorem roundHalfEven_floor_le (y : ℚ) : ⌊y⌋ ≤ roundHalfEven y := by
  unfold roundHalfEven
  split_ifs <;> omega

theorem roundHalfEven_le_floor_succ (y : ℚ) : roundHalfEven y ≤ ⌊y⌋ + 1 := by
  unfold roundHalfEven
  split_ifs <;> omega

theorem roundHalfEven_sub_le (y : ℚ) : |(roundHalfEven y : ℚ) - y| ≤ 1 / 2 := by
  have h1 := Int.floor_le y
  have h2 := Int.lt_floor_add_one y
  rw [abs_le]
  unfold roundHalfEven
  split_ifs with ha hb hc
  · constructor <;> linarith
  · push_cast; constructor <;> linarith
  · constructor <;> linarith
  · push_cast; constructor <;> linarith

theorem roundHalfEven_eq_of_near (y : ℚ) (k : ℤ) (h : |y - k| < 1 / 2) :
    roundHalfEven y = k := by
  rw [abs_lt] at h
  have h3 := roundHalfEven_sub_le y
  rw [abs_le] at h3
  have h4 : ((roundHalfEven y - k : ℤ) : ℚ) < 1 := by push_cast; linarith
  have h5 : (-1 : ℚ) < ((roundHalfEven y - k : ℤ) : ℚ) := by push_cast; linarith
  have h6 : roundHalfEven y - k < 1 := by exact_mod_cast h4
  have h7 : -1 < roundHalfEven y - k := by exact_mod_cast h5
  omega

theorem roundHalfEven_intCast (k : ℤ) : roundHalfEven (k : ℚ) = k :=
  roundHalfEven_eq_of_near _ k (by simp)

theorem roundHalfEven_mono {y z : ℚ} (h : y ≤ z) : roundHalfEven y ≤ roundHalfEven z := by
  have hf : ⌊y⌋ ≤ ⌊z⌋ := Int.floor_mono h
  rcases lt_or_eq_of_le hf with hlt | heq
  · have := roundHalfEven_le_floor_succ y
    have := roundHalfEven_floor_le z
    omega
  · unfold roundHalfEven
    rw [heq]
    split_ifs <;> first | omega | (exfalso; linarith)

theorem ulp_pos (y : ℚ) : 0 < ulp y := by
  unfold ulp
  positivity

/-- A positive number is below 2^53 spacings. -/
theorem lt_ulp_mul (y : ℚ) : y < 2 ^ 53 * ulp y := by
  unfold ulp
  have h1 : y < (2 : ℚ) ^ (Int.log 2 y + 1) := by
    exact_mod_cast Int.lt_zpow_succ_log_self (R := ℚ) (b := 2) (by norm_num) y
  have h2 : (2 : ℚ) ^ (Int.log 2 y + 1) ≤ (2 : ℚ) ^ (max (Int.log 2 y) (-1022) + 1) :=
    zpow_le_zpow_right₀ (by norm_num) (by omega)
  have h3 : (2 : ℚ) ^ 53 * (2 : ℚ) ^ (max (Int.log 2 y) (-1022) - 52) =
      (2 : ℚ) ^ (max (Int.log 2 y) (-1022) + 1) := by
    rw [← zpow_natCast, ← zpow_add₀ (by norm_num)]
    congr 1
    push_cast
    ring
  rw [h3]
  exact lt_of_lt_of_le h1 h2

/-- A positive number in the normal range is at least 2^52 spacings. -/
theorem ulp_mul_le (y : ℚ) (hy : 0 < y) (hn : -1022 ≤ Int.log 2 y) : 2 ^ 52 * ulp y ≤ y := by
  unfold ulp
  rw [max_eq_left hn]
  have h1 : (2 : ℚ) ^ (Int.log 2 y) ≤ y := by
    exact_mod_cast Int.zpow_log_le_self (R := ℚ) (b := 2) (by norm_num) hy
  have h3 : (2 : ℚ) ^ 52 * (2 : ℚ) ^ (Int.log 2 y - 52) = (2 : ℚ) ^ (Int.log 2 y) := by
    rw [← zpow_natCast, ← zpow_add₀ (by norm_num)]
    congr 1
    push_cast
    ring
  rw [h3]
  exact h1

theorem roundMagnitude_zero : roundMagnitude 0 = 0 := by
  simp [roundMagnitude, roundHalfEven]

theorem roundMagnitude_nonneg (y : ℚ) (hy : 0 ≤ y) : 0 ≤ roundMagnitude y := by
  unfold roundMagnitude
  have h0 : (0 : ℚ) ≤ y / ulp y := div_nonneg hy (le_of_lt (ulp_pos y))
  have h1 : (0 : ℤ) ≤ roundHalfEven (y / ulp y) := by
    have hm := roundHalfEven_mono h0
    have hz : roundHalfEven 0 = 0 := by simpa using roundHalfEven_intCast 0
    rw [hz] at hm
    exact hm
  have h2 : (0 : ℚ) ≤ (roundHalfEven (y / ulp y) : ℚ) := by exact_mod_cast h1
  exact mul_nonneg h2 (le_of_lt (ulp_pos y))

/-- Rounding a magnitude moves it by at most half a spacing. -/
theorem roundMagnitude_sub_le (y : ℚ) : |roundMagnitude y - y| ≤ ulp y / 2 := by
  unfold roundMagnitude
  have hq := ulp_pos y
  have h := roundHalfEven_sub_le (y / ulp y)
  have heq : (roundHalfEven (y / ulp y) : ℚ) * ulp y - y =
      ((roundHalfEven (y / ulp y) : ℚ) - y / ulp y) * ulp y := by
    field_simp
  rw [heq, abs_mul, abs_of_pos hq]
  calc |(roundHalfEven (y / ulp y) : ℚ) - y / ulp y| * ulp y ≤ 1 / 2 * ulp y :=
        mul_le_mul_of_nonneg_right h (le_of_lt hq)
    _ = ulp y / 2 := by ring

theorem two_pow_mul_zpow (n : ℕ) (e : ℤ) :
    (2 : ℚ) ^ n * (2 : ℚ) ^ (e - 52) = (2 : ℚ) ^ (e - 52 + n) := by
  rw [← zpow_natCast, ← zpow_add₀ (by norm_num)]
  congr 1
  ring

/-- A rounded magnitude does not pass the top of its binade. -/
theorem roundMagnitude_le_top (y : ℚ) : roundMagnitude y ≤ 2 ^ 53 * ulp y := by
  unfold roundMagnitude
  have hq := ulp_pos y
  have h1 : y / ulp y ≤ ((2 ^ 53 : ℤ) : ℚ) := by
    rw [div_le_iff₀ hq]
    push_cast
    exact le_of_lt (lt_ulp_mul y)
  have h2 : roundHalfEven (y / ulp y) ≤ 2 ^ 53 := by
    have := roundHalfEven_mono h1
    rwa [roundHalfEven_intCast] at this
  have h3 : (roundHalfEven (y / ulp y) : ℚ) ≤ 2 ^ 53 := by exact_mod_cast h2
  exact mul_le_mul_of_nonneg_right h3 (le_of_lt hq)

/-- A rounded magnitude of the normal range does not pass the bottom of its
binade. -/
theorem bottom_le_roundMagnitude (y : ℚ) (hy : 0 < y) (hn : -1022 ≤ Int.log 2 y) :
    2 ^ 52 * ulp y ≤ roundMagnitude y := by
  unfold roundMagnitude
  have hq := ulp_pos y
  have h1 : ((2 ^ 52 : ℤ) : ℚ) ≤ y / ulp y := by
    rw [le_div_iff₀ hq]
    push_cast
    exact ulp_mul_le y hy hn
  have h2 : 2 ^ 52 ≤ roundHalfEven (y / ulp y) := by
    have := roundHalfEven_mono h1
    rwa [roundHalfEven_intCast] at this
  have h3 : (2 ^ 52 : ℚ) ≤ (roundHalfEven (y / ulp y) : ℚ) := by exact_mod_cast h2
  exact mul_le_mul_of_nonneg_right h3 (le_of_lt hq)

theorem roundMagnitude_mono {y z : ℚ} (hy : 0 ≤ y) (h : y ≤ z) :
    roundMagnitude y ≤ roundMagnitude z := by
  rcases eq_or_lt_of_le hy with h0 | hpos
  · rw [← h0, roundMagnitude_zero]
    exact roundMagnitude_nonneg z (le_trans hy h)
  · have hz : 0 < z := lt_of_lt_of_le hpos h
    have hlog : Int.log 2 y ≤ Int.log 2 z := Int.log_mono_right hpos h
    have hE : max (Int.log 2 y) (-1022) ≤ max (Int.log 2 z) (-1022) :=
      max_le_max hlog (le_refl _)
    rcases eq_or_lt_of_le hE with heq | hlt
    · have hu : ulp y = ulp z := by unfold ulp; rw [heq]
      unfold roundMagnitude
      rw [hu]
      have hq := ulp_pos z
      have h1 : y / ulp z ≤ z / ulp z := div_le_div_of_nonneg_right h (le_of_lt hq)
      have h2 : (roundHalfEven (y / ulp z) : ℚ) ≤ (roundHalfEven (z / ulp z) : ℚ) := by
        exact_mod_cast roundHalfEven_mono h1
      exact mul_le_mul_of_nonneg_right h2 (le_of_lt hq)
    · have hn : -1022 ≤ Int.log 2 z := by
        rcases le_total (Int.log 2 z) (-1022) with hc | hc
        · rw [max_eq_right hc] at hlt
          have := le_max_right (Int.log 2 y) (-1022)
          omega
        · exact hc
      have h1 := roundMagnitude_le_top y
      have h2 := bottom_le_roundMagnitude z hz hn
      have h3 : (2 : ℚ) ^ 53 * ulp y ≤ 2 ^ 52 * ulp z := by
        unfold ulp
        rw [two_pow_mul_zpow, two_pow_mul_zpow]
        exact zpow_le_zpow_right₀ (by norm_num) (by push_cast; omega)
      linarith

theorem roundFinite_mono {x y : ℚ} (h : x ≤ y) : roundFinite x ≤ roundFinite y := by
  unfold roundFinite
  by_cases hx : 0 ≤ x
  · have hy : 0 ≤ y := le_trans hx h
    rw [if_pos hx, if_pos hy]
    exact roundMagnitude_mono hx h
  · rw [if_neg hx]
    push_neg at hx
    by_cases hy : 0 ≤ y
    · rw [if_pos hy]
      have h1 := roundMagnitude_nonneg (-x) (by linarith)
      have h2 := roundMagnitude_nonneg y hy
      linarith
    · rw [if_neg hy]
      push_neg at hy
      have := roundMagnitude_mono (y := -y) (z := -x) (by linarith) (by linarith)
      linarith

/-- Rounding moves a number of magnitude below `2 ^ (k + 1)` by at most
`2 ^ (k - 53)`, for `k` in the normal range. -/
theorem roundFinite_sub_le (x : ℚ) (k : ℤ) (hk : -1022 ≤ k) (hx : |x| < 2 ^ (k + 1)) :
    |roundFinite x - x| ≤ 2 ^ (k - 53) := by
  have key : ∀ y : ℚ, 0 ≤ y → y < 2 ^ (k + 1) → |roundMagnitude y - y| ≤ 2 ^ (k - 53) := by
    intro y hy hlt
    rcases eq_or_lt_of_le hy with h0 | hpos
    · rw [← h0, roundMagnitude_zero]
      simp only [sub_zero, abs_zero]
      positivity
    · have hlog : Int.log 2 y < k + 1 :=
        (Int.lt_zpow_iff_log_lt (R := ℚ) (b := 2) (by norm_num) hpos).1 (by exact_mod_cast hlt)
      have hE : max (Int.log 2 y) (-1022) ≤ k := max_le (by omega) hk
      have hu : ulp y ≤ 2 ^ (k - 52) := by
        unfold ulp
        exact zpow_le_zpow_right₀ (by norm_num) (by omega)
      have h2 : (2 : ℚ) ^ (k - 52) = 2 * 2 ^ (k - 53) := by
        rw [show k - 52 = 1 + (k - 53) by ring, zpow_add₀ (by norm_num)]
        norm_num
      have := roundMagnitude_sub_le y
      linarith
  unfold roundFinite
  by_cases h0 : 0 ≤ x
  · rw [if_pos h0]
    exact key x h0 (by rwa [abs_of_nonneg h0] at hx)
  · rw [if_neg h0]
    push_neg at h0
    have := key (-x) (by linarith) (by rwa [abs_of_neg h0] at hx)
    rw [show -roundMagnitude (-x) - x = -(roundMagnitude (-x) - -x) by ring, abs_neg]
    exact this

theorem ulp_eq_of_binade (y : ℚ) (e : ℤ) (he : -1022 ≤ e) (h1 : 2 ^ e ≤ y)
    (h2 : y < 2 ^ (e + 1)) : ulp y = 2 ^ (e - 52) := by
  have hpos : 0 < y := lt_of_lt_of_le (by positivity) h1
  have ha : e ≤ Int.log 2 y :=
    (Int.zpow_le_iff_le_log (R := ℚ) (b := 2) (by norm_num) hpos).1 (by exact_mod_cast h1)
  have hb : Int.log 2 y < e + 1 :=
    (Int.lt_zpow_iff_log_lt (R := ℚ) (b := 2) (by norm_num) hpos).1 (by exact_mod_cast h2)
  have hlog : Int.log 2 y = e := by omega
  unfold ulp
  rw [hlog, max_eq_left he]

/-- Evaluation of the rounding: a number of the binade `e` that lies less than
half a spacing from `k` spacings rounds to `k` spacings. -/
theorem roundFinite_eq_of_near (x : ℚ) (e k : ℤ) (he : -1022 ≤ e) (h1 : 2 ^ e ≤ |x|)
    (h2 : |x| < 2 ^ (e + 1)) (hk : |x / 2 ^ (e - 52) - k| < 1 / 2) :
    roundFinite x = k * 2 ^ (e - 52) := by
  unfold roundFinite
  by_cases h0 : 0 ≤ x
  · rw [if_pos h0]
    rw [abs_of_nonneg h0] at h1 h2
    unfold roundMagnitude
    rw [ulp_eq_of_binade x e he h1 h2, roundHalfEven_eq_of_near _ k hk]
  · rw [if_neg h0]
    push_neg at h0
    rw [abs_of_neg h0] at h1 h2
    unfold roundMagnitude
    have hk2 : |(-x) / 2 ^ (e - 52) - ((-k : ℤ) : ℚ)| < 1 / 2 := by
      rw [show (-x) / (2 : ℚ) ^ (e - 52) - ((-k : ℤ) : ℚ) = -(x / 2 ^ (e - 52) - k) by
        push_cast; ring, abs_neg]
      exact hk
    rw [ulp_eq_of_binade (-x) e he h1 h2, roundHalfEven_eq_of_near _ (-k) hk2]
    push_cast
    ring

/-- The same evaluation with the hypotheses written without absolute values. -/
theorem roundFinite_eval (x : ℚ) (e k : ℤ) (he : -1022 ≤ e)
    (h1 : 2 ^ e ≤ x ∨ x ≤ -2 ^ e) (h2 : -2 ^ (e + 1) < x ∧ x < 2 ^ (e + 1))
    (hk : -(1 / 2) < x / 2 ^ (e - 52) - k ∧ x / 2 ^ (e - 52) - k < 1 / 2) :
    roundFinite x = k * 2 ^ (e - 52) := by
  apply roundFinite_eq_of_near x e k he
  · rcases h1 with h | h
    · exact le_trans h (le_abs_self x)
    · exact le_trans (by linarith) (neg_le_abs x)
  · exact abs_lt.2 h2
  · exact abs_lt.2 hk

theorem roundFinite_zero : roundFinite 0 = 0 := by
  simp [roundFinite, roundMagnitude_zero]

theorem roundFinite_one : roundFinite 1 = 1 := by
  have h := roundFinite_eq_of_near 1 0 (2 ^ 52) (by norm_num) (by norm_num) (by norm_num)
    (by norm_num)
  rw [h]; norm_num

theorem roundFinite_180 : roundFinite 180 = 180 := by
  have h := roundFinite_eq_of_near 180 7 (180 * 2 ^ 45) (by norm_num) (by norm_num)
    (by norm_num) (by norm_num)
  rw [h]; norm_num

theorem roundFinite_90 : roundFinite 90 = 90 := by
  have h := roundFinite_eq_of_near 90 6 (90 * 2 ^ 46) (by norm_num) (by norm_num)
    (by norm_num) (by norm_num)
  rw [h]; norm_num

theorem roundFinite_neg90 : roundFinite (-90) = -90 := by
  have h := roundFinite_eq_of_near (-90) 6 (-(90 * 2 ^ 46)) (by norm_num) (by norm_num)
    (by norm_num) (by norm_num)
  rw [h]; norm_num

theorem maxFinite_ge : (512 : ℚ) ≤ maxFinite := by
  norm_num [maxFinite]

/-- A rounded value of magnitude at most 512 is a finite double. -/
theorem ofRat_eq_finite (x : ℚ) (h : |roundFinite x| ≤ 512) :
    F64.ofRat x = F64.finite (roundFinite x) := by
  have hm := maxFinite_ge
  rw [abs_le] at h
  unfold F64.ofRat
  rw [if_neg (by linarith), if_neg (by linarith)]

/-- The three roundings of line 79 for a score in [0, 100]: no overflow, the
result within [-90, 90] and within `2 ^ (-44)` of the exact value. -/
theorem needleAngle_finite (s : ℚ) (h0 : 0 ≤ s) (h1 : s ≤ 100) :
    needleAngle (F64.finite s) =
      F64.finite (roundFinite (roundFinite (roundFinite (s / 100) * 180) - 90)) ∧
    -90 ≤ roundFinite (roundFinite (roundFinite (s / 100) * 180) - 90) ∧
    roundFinite (roundFinite (roundFinite (s / 100) * 180) - 90) ≤ 90 ∧
    |roundFinite (roundFinite (roundFinite (s / 100) * 180) - 90) - (s / 100 * 180 - 90)| ≤
      1 / 2 ^ 44 := by
  -- first rounding
  have hx1a : 0 ≤ s / 100 := by linarith
  have hx1b : s / 100 ≤ 1 := by linarith
  have hr1a : 0 ≤ roundFinite (s / 100) := by
    have := roundFinite_mono hx1a; rwa [roundFinite_zero] at this
  have hr1b : roundFinite (s / 100) ≤ 1 := by
    have := roundFinite_mono hx1b; rwa [roundFinite_one] at this
  have he1 : |roundFinite (s / 100) - s / 100| ≤ 2 ^ ((0 : ℤ) - 53) :=
    roundFinite_sub_le (s / 100) 0 (by norm_num) (by rw [abs_of_nonneg hx1a]; norm_num; linarith)
  -- second rounding
  have hx2a : 0 ≤ roundFinite (s / 100) * 180 := by linarith
  have hx2b : roundFinite (s / 100) * 180 ≤ 180 := by linarith
  have hr2a : 0 ≤ roundFinite (roundFinite (s / 100) * 180) := by
    have := roundFinite_mono hx2a; rwa [roundFinite_zero] at this
  have hr2b : roundFinite (roundFinite (s / 100) * 180) ≤ 180 := by
    have := roundFinite_mono hx2b; rwa [roundFinite_180] at this
  have he2 : |roundFinite (roundFinite (s / 100) * 180) - roundFinite (s / 100) * 180| ≤
      2 ^ ((7 : ℤ) - 53) :=
    roundFinite_sub_le _ 7 (by norm_num) (by rw [abs_of_nonneg hx2a]; norm_num; linarith)
  -- third rounding
  have hx3a : -90 ≤ roundFinite (roundFinite (s / 100) * 180) - 90 := by linarith
  have hx3b : roundFinite (roundFinite (s / 100) * 180) - 90 ≤ 90 := by linarith
  have hr3a : -90 ≤ roundFinite (roundFinite (roundFinite (s / 100) * 180) - 90) := by
    have := roundFinite_mono hx3a; rwa [roundFinite_neg90] at this
  have hr3b : roundFinite (roundFinite (roundFinite (s / 100) * 180) - 90) ≤ 90 := by
    have := roundFinite_mono hx3b; rwa [roundFinite_90] at this
  have he3 : |roundFinite (roundFinite (roundFinite (s / 100) * 180) - 90) -
      (roundFinite (roundFinite (s / 100) * 180) - 90)| ≤ 2 ^ ((6 : ℤ) - 53) :=
    roundFinite_sub_le _ 6 (by norm_num)
      (by rw [abs_lt]; constructor <;> norm_num <;> linarith)
  refine ⟨?_, hr3a, hr3b, ?_⟩
  · unfold needleAngle
    simp only [F64.divConst, F64.mulConst, F64.subConst]
    rw [ofRat_eq_finite (s / 100) (by rw [abs_le]; constructor <;> linarith)]
    simp only []
    rw [ofRat_eq_finite _ (by rw [abs_le]; constructor <;> linarith)]
    simp only []
    rw [ofRat_eq_finite _ (by rw [abs_le]; constructor <;> linarith)]
  · rw [abs_le] at he1 he2 he3 ⊢
    norm_num at he1 he2 he3 ⊢
    constructor <;> linarith

theorem needleAngle_zero : needleAngle (F64.finite 0) = F64.finite (-90) := by
  have h := (needleAngle_finite 0 (le_refl _) (by norm_num)).1
  rw [h]
  norm_num [roundFinite_zero, roundFinite_neg90]

theorem needleAngle_hundred : needleAngle (F64.finite 100) = F64.finite 90 := by
  have h := (needleAngle_finite 100 (by norm_num) (le_refl _)).1
  rw [h]
  norm_num [roundFinite_one, roundFinite_180, roundFinite_90]

/-- Evaluation of line 79 when the three intermediate values are given with
their binades. -/
theorem needleAngle_eval (s r1 r2 r3 : ℚ)
    (h1 : roundFinite (s / 100) = r1) (h2 : roundFinite (r1 * 180) = r2)
    (h3 : roundFinite (r2 - 90) = r3)
    (b1 : -512 ≤ r1 ∧ r1 ≤ 512) (b2 : -512 ≤ r2 ∧ r2 ≤ 512) (b3 : -512 ≤ r3 ∧ r3 ≤ 512) :
    needleAngle (F64.finite s) = F64.finite r3 := by
  unfold needleAngle
  simp only [F64.divConst, F64.mulConst, F64.subConst]
  rw [ofRat_eq_finite (s / 100) (by rw [h1]; exact abs_le.2 b1), h1]
  simp only []
  rw [ofRat_eq_finite (r1 * 180) (by rw [h2]; exact abs_le.2 b2), h2]
  simp only []
  rw [ofRat_eq_finite (r2 - 90) (by rw [h3]; exact abs_le.2 b3), h3]

theorem needleAngle_200 : needleAngle (F64.finite 200) = F64.finite 270 := by
  apply needleAngle_eval 200 2 360 270
  · rw [roundFinite_eval (200 / 100) 1 (2 ^ 52) (by norm_num) (by norm_num) (by norm_num)
      (by norm_num)]
    norm_num
  · rw [roundFinite_eval (2 * 180) 8 (360 * 2 ^ 44) (by norm_num) (by norm_num)
      (by norm_num) (by norm_num)]
    norm_num
  · rw [roundFinite_eval (360 - 90) 8 (270 * 2 ^ 44) (by norm_num) (by norm_num)
      (by norm_num) (by norm_num)]
    norm_num
  all_goals norm_num

theorem needleAngle_neg50 : needleAngle (F64.finite (-50)) = F64.finite (-180) := by
  apply needleAngle_eval (-50) (-(1 / 2)) (-90) (-180)
  · rw [roundFinite_eval (-50 / 100) (-1) (-(2 ^ 52)) (by norm_num) (by norm_num)
      (by norm_num) (by norm_num)]
    norm_num
  · rw [roundFinite_eval (-(1 / 2) * 180) 6 (-(90 * 2 ^ 46)) (by norm_num) (by norm_num)
      (by norm_num) (by norm_num)]
    norm_num
  · rw [roundFinite_eval (-90 - 90) 7 (-(180 * 2 ^ 45)) (by norm_num) (by norm_num)
      (by norm_num) (by norm_num)]
    norm_num
  all_goals norm_num

/-- The score `2 ^ (-50)` is positive, yet the third rounding takes it back to
-90, the angle of the score 0. -/
theorem needleAngle_tiny : needleAngle (F64.finite (1 / 2 ^ 50)) = F64.finite (-90) := by
  apply needleAngle_eval (1 / 2 ^ 50) (5764607523034235 / 2 ^ 109)
    (8106479329266893 / 2 ^ 102) (-90)
  · rw [roundFinite_eval (1 / 2 ^ 50 / 100) (-57) 5764607523034235 (by norm_num)
      (by norm_num) (by norm_num) (by norm_num)]
    norm_num
  · rw [roundFinite_eval (5764607523034235 / 2 ^ 109 * 180) (-50) 8106479329266893
      (by norm_num) (by norm_num) (by norm_num) (by norm_num)]
    norm_num
  · rw [roundFinite_eval (8106479329266893 / 2 ^ 102 - 90) 6 (-(90 * 2 ^ 46))
      (by norm_num) (by norm_num) (by norm_num) (by norm_num)]
    norm_num
  all_goals norm_num

/-- The score 24 of the snapshot: the binary64 angle is
-6586514455029351 / 2^47, which prints as -46.800000000000004. -/
theorem needleAngle_24 :
    needleAngle (F64.finite 24) = F64.finite (-(6586514455029351 / 2 ^ 47)) := by
  apply needleAngle_eval 24 (8646911284551352 / 2 ^ 55) (6079859496950169 / 2 ^ 47)
    (-(6586514455029351 / 2 ^ 47))
  · rw [roundFinite_eval (24 / 100) (-3) 8646911284551352 (by norm_num)
      (by norm_num) (by norm_num) (by norm_num)]
    norm_num
  · rw [roundFinite_eval (8646911284551352 / 2 ^ 55 * 180) 5 6079859496950169
      (by norm_num) (by norm_num) (by norm_num) (by norm_num)]
    norm_num
  · rw [roundFinite_eval (6079859496950169 / 2 ^ 47 - 90) 5 (-6586514455029351)
      (by norm_num) (by norm_num) (by norm_num) (by norm_num)]
    norm_num
  all_goals norm_num

/-! ### Needle angle -/

/-- Counterexample for C1: the scores 0 and `2 ^ (-50)` lie in [0, 100] and
the first is smaller, but both put the needle at -90 degrees, so the angle is
not strictly increasing in the score. -/
theorem needleAngle_not_strictMono :
    (0 : ℚ) < 1 / 2 ^ 50 ∧ (1 : ℚ) / 2 ^ 50 ≤ 100 ∧
    needleAngle (F64.finite 0) = F64.finite (-90) ∧
    needleAngle (F64.finite (1 / 2 ^ 50)) = F64.finite (-90) ∧
    needleAngle (F64.finite 0) = needleAngle (F64.finite (1 / 2 ^ 50)) := by
  refine ⟨by norm_num, by norm_num, needleAngle_zero, needleAngle_tiny, ?_⟩
  rw [needleAngle_zero, needleAngle_tiny]

/-- C1 (amended): for every score the needle angle is `(s/100)*180 - 90`
evaluated in binary64, which on [0, 100] is within `2 ^ (-44)` of the exact
value; score 0 gives -90 and score 100 gives +90; on [0, 100] the angle is
non-decreasing in the score, and it is strictly increasing over the integer
scores of that range. -/
theorem needleAngle_linear_monotone :
    (∀ score : F64,
      needleAngle score = ((score.divConst 100).mulConst 180).subConst 90) ∧
    needleAngle (F64.finite 0) = F64.finite (-90) ∧
    needleAngle (F64.finite 100) = F64.finite 90 ∧
    (∀ (s : ℚ) (level : String), 0 ≤ s → s ≤ 100 →
      ∃ a : ℚ, needleAngle (F64.finite s) = F64.finite a ∧
        |a - (RiskGauge s level).angle| ≤ 1 / 2 ^ 44) ∧
    (∀ s1 s2 : ℚ, 0 ≤ s1 → s1 ≤ s2 → s2 ≤ 100 →
      ∃ a b : ℚ, needleAngle (F64.finite s1) = F64.finite a ∧
        needleAngle (F64.finite s2) = F64.finite b ∧ a ≤ b) ∧
    (∀ m n : ℕ, m < n → n ≤ 100 →
      ∃ a b : ℚ, needleAngle (F64.finite (m : ℚ)) = F64.finite a ∧
        needleAngle (F64.finite (n : ℚ)) = F64.finite b ∧ a < b) := by
  refine ⟨fun score => rfl, needleAngle_zero, needleAngle_hundred, ?_, ?_, ?_⟩
  · intro s level h0 h1
    exact ⟨_, (needleAngle_finite s h0 h1).1, (needleAngle_finite s h0 h1).2.2.2⟩
  · intro s1 s2 h0 h12 h1
    refine ⟨_, _, (needleAngle_finite s1 h0 (le_trans h12 h1)).1,
      (needleAngle_finite s2 (le_trans h0 h12) h1).1, ?_⟩
    apply roundFinite_mono
    have hA : roundFinite (s1 / 100) ≤ roundFinite (s2 / 100) :=
      roundFinite_mono (by linarith)
    have hB : roundFinite (roundFinite (s1 / 100) * 180) ≤
        roundFinite (roundFinite (s2 / 100) * 180) :=
      roundFinite_mono (by linarith)
    linarith
  · intro m n hmn hn
    have hm0 : (0 : ℚ) ≤ (m : ℚ) := Nat.cast_nonneg m
    have hn0 : (0 : ℚ) ≤ (n : ℚ) := Nat.cast_nonneg n
    have hn1 : (n : ℚ) ≤ 100 := by exact_mod_cast hn
    have hstep : (m : ℚ) + 1 ≤ (n : ℚ) := by exact_mod_cast hmn
    have hm1 : (m : ℚ) ≤ 100 := by linarith
    obtain ⟨hma, -, -, hme⟩ := needleAngle_finite (m : ℚ) hm0 hm1
    obtain ⟨hna, -, -, hne⟩ := needleAngle_finite (n : ℚ) hn0 hn1
    refine ⟨_, _, hma, hna, ?_⟩
    rw [abs_le] at hme hne
    norm_num at hme hne
    linarith

/-- Witness for C1 (amended) at the integer scores 24 and 25. -/
theorem needleAngle_linear_monotone_witness :
    ∃ a b : ℚ, needleAngle (F64.finite ((24 : ℕ) : ℚ)) = F64.finite a ∧
      needleAngle (F64.finite ((25 : ℕ) : ℚ)) = F64.finite b ∧ a < b :=
  needleAngle_linear_monotone.2.2.2.2.2 24 25 (by decide) (by decide)

/-- Counterexample for C2: for the hard-coded snapshot the needle angle is not
-24.8 degrees. -/
theorem riskGauge_mock_angle_ne :
    (dashboardGauge MOCK_OVERVIEW).angle ≠ -(248 / 10) := by
  norm_num [dashboardGauge, MOCK_OVERVIEW, RiskGauge]

/-- C2 (amended): for the hard-coded snapshot (`risk_score = 24`,
`risk_level = "low"`) the gauge puts the needle at -46.8 degrees, which is
`24/100*180 - 90`, and shows the caption "low risk". -/
theorem riskGauge_mock_angle_caption :
    MOCK_OVERVIEW.risk_score = 24 ∧ MOCK_OVERVIEW.risk_level = "low" ∧
    (dashboardGauge MOCK_OVERVIEW).angle = -(468 / 10) ∧
    (dashboardGauge MOCK_OVERVIEW).angle = (24 : ℚ) / 100 * 180 - 90 ∧
    (dashboardGauge MOCK_OVERVIEW).caption = "low risk" := by
  refine ⟨rfl, rfl, ?_, ?_, by decide⟩
  · norm_num [dashboardGauge, MOCK_OVERVIEW, RiskGauge]
  · norm_num [dashboardGauge, MOCK_OVERVIEW, RiskGauge]

/-- C3: for every status string `ComplianceBadge` renders the "✓ Compliant"
variant (label and the `low` colours) if and only if the status is exactly
"compliant"; every other string renders the "⚠ Action Needed" variant (label
and the `high` colours), and so does the `pci_dss` entry of the snapshot. -/
theorem complianceBadge_compliant_iff (name status : String) :
    ((ComplianceBadge name status).label = "✓ Compliant" ↔ status = "compliant") ∧
    (status = "compliant" →
      ComplianceBadge name status =
        { name := name, background := colors.low ++ "11",
          border := "1px solid " ++ colors.low ++ "44", color := colors.low,
          label := "✓ Compliant" }) ∧
    (status ≠ "compliant" →
      ComplianceBadge name status =
        { name := name, background := colors.high ++ "11",
          border := "1px solid " ++ colors.high ++ "44", color := colors.high,
          label := "⚠ Action Needed" }) ∧
    (complianceBadges MOCK_OVERVIEW).map (fun b => b.label) =
      ["✓ Compliant", "✓ Compliant", "⚠ Action Needed"] := by
  refine ⟨?_, ?_, ?_, by decide⟩
  · by_cases h : status = "compliant"
    · simp [ComplianceBadge, h]
    · simp only [ComplianceBadge, h, decide_False, Bool.false_eq_true, if_false, iff_false]
      decide
  · intro h
    simp [ComplianceBadge, h]
  · intro h
    simp [ComplianceBadge, h]

/-- Witness for C3 at the statuses "compliant" and "action_needed". -/
theorem complianceBadge_compliant_iff_witness :
    (ComplianceBadge "HIPAA" "compliant").label = "✓ Compliant" ∧
    (ComplianceBadge "PCI DSS" "action_needed").label = "⚠ Action Needed" :=
  ⟨(complianceBadge_compliant_iff "HIPAA" "compliant").1.2 rfl,
   congrArg ComplianceBadgeView.label
     ((complianceBadge_compliant_iff "PCI DSS" "action_needed").2.2.1 (by decide))⟩

/-! ### Tab selection -/

/-- The ids of the four tab buttons are the four literals of the panel guards. -/
theorem tabs_ids_eq_panelGuards : tabs.map Tab.id = panelGuards := by
  decide

/-- A click puts the id of the clicked button into `activeTab`. -/
theorem clickTab_activeTab (s : DashboardState) (i : Fin tabs.length) :
    (clickTab s i).activeTab = (tabs.get i).id := rfl

/-- The id of a tab button is one of the four guard literals. -/
theorem tab_id_mem_panelGuards (i : Fin tabs.length) :
    (tabs.get i).id ∈ panelGuards := by
  rw [← tabs_ids_eq_panelGuards]
  exact List.mem_map_of_mem Tab.id (List.get_mem tabs i.1 i.2)

/-- Clicks preserve membership of `activeTab` in the four guard literals. -/
theorem clickTabs_activeTab_mem (clicks : List (Fin tabs.length)) :
    ∀ s : DashboardState, s.activeTab ∈ panelGuards →
      (clickTabs s clicks).activeTab ∈ panelGuards := by
  induction clicks with
  | nil => intro s hs; exact hs
  | cons i rest ih =>
    intro s _
    exact ih (clickTab s i) (tab_id_mem_panelGuards i)

/-- When `activeTab` is one of the four guard literals, exactly the panel of
that name passes its guard. -/
theorem visiblePanels_of_mem (s : DashboardState) (h : s.activeTab ∈ panelGuards) :
    visiblePanels s = [s.activeTab] := by
  simp only [panelGuards, List.mem_cons, List.mem_singleton, List.not_mem_nil, or_false] at h
  rcases h with h | h | h | h <;> simp only [visiblePanels, h] <;> decide

/-- C4: starting from the initial state (`activeTab = "dashboard"`), after any
finite sequence of clicks on the four tab buttons `activeTab` is one of
dashboard, alerts, compliance, reports, and exactly one of the four panels is
visible, namely the panel of the active tab. -/
theorem clickTabs_exactly_one_panel (now : Nat) (clicks : List (Fin tabs.length)) :
    (initialState now).activeTab = "dashboard" ∧
    (clickTabs (initialState now) clicks).activeTab ∈
      ["dashboard", "alerts", "compliance", "reports"] ∧
    (visiblePanels (clickTabs (initialState now) clicks)).length = 1 ∧
    visiblePanels (clickTabs (initialState now) clicks) =
      [(clickTabs (initialState now) clicks).activeTab] := by
  have hmem : (clickTabs (initialState now) clicks).activeTab ∈ panelGuards :=
    clickTabs_activeTab_mem clicks (initialState now) (List.mem_cons_self _ _)
  refine ⟨rfl, hmem, ?_, visiblePanels_of_mem _ hmem⟩
  rw [visiblePanels_of_mem _ hmem]
  rfl

/-- C5: selecting a tab sets `activeTab` to its id whatever the previous state,
selecting the same tab twice in a row gives the same state as selecting it
once, and after a non-empty click sequence `activeTab` is the id of the last
tab clicked. -/
theorem clickTab_unconditional_idempotent_last :
    (∀ (s : DashboardState) (i : Fin tabs.length),
      (clickTab s i).activeTab = (tabs.get i).id) ∧
    (∀ (s : DashboardState) (i : Fin tabs.length),
      clickTab (clickTab s i) i = clickTab s i) ∧
    (∀ (s : DashboardState) (clicks : List (Fin tabs.length)) (h : clicks ≠ []),
      (clickTabs s clicks).activeTab = (tabs.get (clicks.getLast h)).id) := by
  refine ⟨fun s i => rfl, fun s i => rfl, ?_⟩
  intro s clicks h
  have hsplit : clicks = clicks.dropLast ++ [clicks.getLast h] :=
    (List.dropLast_append_getLast h).symm
  have hrun : clickTabs s clicks =
      clickTab (clickTabs s clicks.dropLast) (clicks.getLast h) := by
    conv_lhs => rw [hsplit]
    simp [clickTabs, List.foldl_append]
  rw [hrun]
  rfl

/-- Witness for C5: clicking alerts and then compliance. -/
theorem clickTab_unconditional_idempotent_last_witness :
    ∃ h : [(⟨1, by decide⟩ : Fin tabs.length), ⟨2, by decide⟩] ≠ [],
      (clickTabs (initialState 0) [⟨1, by decide⟩, ⟨2, by decide⟩]).activeTab =
        (tabs.get ([(⟨1, by decide⟩ : Fin tabs.length), ⟨2, by decide⟩].getLast h)).id :=
  ⟨by decide,
   clickTab_unconditional_idempotent_last.2.2 (initialState 0)
     [⟨1, by decide⟩, ⟨2, by decide⟩] (by decide)⟩

/-! ### Attack-source bars -/

/-- In a list sorted descending by count no entry has a larger count than the
first one. -/
theorem count_le_first_of_sorted (first : SourceCount) (rest : List SourceCount)
    (hsorted : (first :: rest).Pairwise (fun a b => b.count ≤ a.count))
    (src : SourceCount) (hsrc : src ∈ first :: rest) : src.count ≤ first.count := by
  rcases List.mem_cons.1 hsrc with h | h
  · rw [h]
  · exact (List.pairwise_cons.1 hsorted).1 src h

/-- C6: for every attack-source sequence sorted descending by count whose
first count is positive, the bar width of entry `i` is
`count[i] / count[0] * 100`, the first width is exactly 100, and every width
lies in [0, 100]. -/
theorem attackSourceWidths_sorted_bounds (srcs : List SourceCount) (first : SourceCount)
    (hfirst : srcs[0]? = some first)
    (hsorted : srcs.Pairwise (fun a b => b.count ≤ a.count))
    (hpos : 0 < first.count) :
    (attackSourceWidths srcs).length = srcs.length ∧
    (∀ (i : Nat) (src : SourceCount), srcs[i]? = some src →
      (attackSourceWidths srcs)[i]? =
        some ((src.count : ℚ) / (first.count : ℚ) * 100)) ∧
    (attackSourceWidths srcs)[0]? = some 100 ∧
    (∀ w ∈ attackSourceWidths srcs, 0 ≤ w ∧ w ≤ 100) := by
  cases srcs with
  | nil => simp at hfirst
  | cons hd rest =>
    have hhd : hd = first := by simpa using hfirst
    subst hhd
    have hq : (0 : ℚ) < (hd.count : ℚ) := by exact_mod_cast hpos
    refine ⟨by simp [attackSourceWidths], ?_, ?_, ?_⟩
    · intro i src hi
      simp only [attackSourceWidths, List.getElem?_map, hi, Option.map_some']
    · simp only [attackSourceWidths, List.map_cons, List.getElem?_cons_zero]
      rw [div_self (ne_of_gt hq), one_mul]
    · intro w hw
      simp only [attackSourceWidths, List.mem_map] at hw
      obtain ⟨src, hsrc, rfl⟩ := hw
      have hle : (src.count : ℚ) ≤ (hd.count : ℚ) := by
        exact_mod_cast count_le_first_of_sorted hd rest hsorted src hsrc
      have hnn : (0 : ℚ) ≤ (src.count : ℚ) := Nat.cast_nonneg _
      constructor
      · exact mul_nonneg (div_nonneg hnn (le_of_lt hq)) (by norm_num)
      · have h1 : (src.count : ℚ) / (hd.count : ℚ) ≤ 1 := (div_le_one hq).2 hle
        linarith

/-- Witness for C6: the hard-coded list with counts 847, 623, 312, 201, 156 is
sorted descending with a positive first count, so its widths are
`count[i] / 847 * 100`, start with 100 and lie in [0, 100]. -/
theorem attackSourceWidths_sorted_bounds_witness :
    MOCK_OVERVIEW.top_attack_sources.map SourceCount.count = [847, 623, 312, 201, 156] ∧
    MOCK_OVERVIEW.top_attack_sources.Pairwise (fun a b => b.count ≤ a.count) ∧
    attackSourceWidths MOCK_OVERVIEW.top_attack_sources =
      [100, (623 : ℚ) / 847 * 100, (312 : ℚ) / 847 * 100, (201 : ℚ) / 847 * 100,
       (156 : ℚ) / 847 * 100] ∧
    (attackSourceWidths MOCK_OVERVIEW.top_attack_sources)[0]? = some 100 ∧
    (∀ w ∈ attackSourceWidths MOCK_OVERVIEW.top_attack_sources, 0 ≤ w ∧ w ≤ 100) :=
  have h := attackSourceWidths_sorted_bounds MOCK_OVERVIEW.top_attack_sources
    { country := "Russia", count := 847, flag := "🇷🇺" } rfl (by decide) (by decide)
  ⟨by decide, by decide, by norm_num [attackSourceWidths, MOCK_OVERVIEW], h.2.2.1, h.2.2.2⟩

/-! ### Alert rows -/

/-- A label that starts with "Source: " is not the text "Email-based". -/
theorem source_label_ne_email (ip : String) : "Source: " ++ ip ≠ "Email-based" := by
  intro h
  have hd := congrArg String.data h
  rw [String.data_append] at hd
  rw [show "Source: ".data = 'S' :: "ource: ".data from rfl,
    show "Email-based".data = 'E' :: "mail-based".data from rfl, List.cons_append] at hd
  exact absurd (List.cons.inj hd).1 (by decide)

/-- Counterexample for C7: with `source_ip = "none"` the row shows
"Source: none", not "Email-based". -/
theorem alertRow_none_not_email :
    (AlertRow { id := "a3", time := "1 hr ago", type := "Phishing Email",
                severity := "medium", source_ip := "none",
                status := "quarantined" }).sourceLabel = "Source: none" ∧
    (AlertRow { id := "a3", time := "1 hr ago", type := "Phishing Email",
                severity := "medium", source_ip := "none",
                status := "quarantined" }).sourceLabel ≠ "Email-based" := by
  decide

/-- C7 (amended): for every alert the row shows "Email-based" exactly when
`source_ip` is the string "N/A" (the sentinel of the code and of the snapshot),
and "Source: <source_ip>" for every other string; the line continues with
" · " and the relative-time label. -/
theorem alertRow_sourceLabel (alert : Alert) :
    ((AlertRow alert).sourceLabel = "Email-based" ↔ alert.source_ip = "N/A") ∧
    (alert.source_ip = "N/A" →
      (AlertRow alert).sourceLabel = "Email-based" ∧
      (AlertRow alert).caption = "Email-based" ++ " · " ++ alert.time) ∧
    (alert.source_ip ≠ "N/A" →
      (AlertRow alert).sourceLabel = "Source: " ++ alert.source_ip ∧
      (AlertRow alert).caption = "Source: " ++ alert.source_ip ++ " · " ++ alert.time) := by
  refine ⟨?_, ?_, ?_⟩
  · by_cases h : alert.source_ip = "N/A"
    · simp [AlertRow, h]
    · simp only [AlertRow, ne_eq, h, not_false_eq_true, if_true, iff_false]
      exact source_label_ne_email _
  · intro h
    simp [AlertRow, h]
  · intro h
    simp [AlertRow, h]

/-- Witness for C7: the snapshot rows a3 (`source_ip = "N/A"`) and a1
(`source_ip = "185.220.101.45"`). -/
theorem alertRow_sourceLabel_witness :
    (AlertRow { id := "a3", time := "1 hr ago", type := "Phishing Email",
                severity := "medium", source_ip := "N/A",
                status := "quarantined" }).sourceLabel = "Email-based" ∧
    (AlertRow { id := "a1", time := "2 min ago", type := "Brute Force Attack",
                severity := "critical", source_ip := "185.220.101.45",
                status := "blocked" }).sourceLabel = "Source: 185.220.101.45" :=
  ⟨((alertRow_sourceLabel _).2.1 rfl).1, ((alertRow_sourceLabel _).2.2 (by decide)).1⟩

/-- C8: for every alert with severity "critical", status "blocked" and
`source_ip = "185.220.101.45"` the row uses the critical colour `#FF3B30` for
the severity indicator, its caption starts with "Source: 185.220.101.45", and
the status badge has the `low` colour as text colour, as background tint
(suffix 22) and as border (suffix 44). -/
theorem alertRow_critical_blocked (alert : Alert)
    (hsev : alert.severity = "critical") (hstatus : alert.status = "blocked")
    (hip : alert.source_ip = "185.220.101.45") :
    (AlertRow alert).c = JSValue.str "#FF3B30" ∧
    (AlertRow alert).c = JSValue.str colors.critical ∧
    (AlertRow alert).sourceLabel = "Source: 185.220.101.45" ∧
    (AlertRow alert).caption = "Source: 185.220.101.45" ++ (" · " ++ alert.time) ∧
    (AlertRow alert).badgeColor = colors.low ∧
    (AlertRow alert).badgeBackground = JSValue.str (colors.low ++ "22") ∧
    (AlertRow alert).badgeBorder = "1px solid " ++ colors.low ++ "44" ∧
    (AlertRow alert).badgeText = "blocked" := by
  have hc : (AlertRow alert).c = JSValue.str colors.critical := by
    simp only [AlertRow, hsev]; decide
  have hl : (AlertRow alert).sourceLabel = "Source: 185.220.101.45" := by
    simp only [AlertRow, hip]; decide
  refine ⟨hc, hc, hl, ?_, ?_, ?_, ?_, ?_⟩
  · have : (AlertRow alert).caption = (AlertRow alert).sourceLabel ++ " · " ++ alert.time := rfl
    rw [this, hl, String.append_assoc]
  · simp only [AlertRow, hstatus]; decide
  · simp only [AlertRow, hstatus]; decide
  · simp only [AlertRow, hstatus]; decide
  · simp only [AlertRow, hstatus]

/-- Witness for C8: alert a1 of the snapshot. -/
theorem alertRow_critical_blocked_witness :
    MOCK_OVERVIEW.recent_alerts[0]? =
      some { id := "a1", time := "2 min ago", type := "Brute Force Attack",
             severity := "critical", source_ip := "185.220.101.45", status := "blocked" } ∧
    (AlertRow { id := "a1", time := "2 min ago", type := "Brute Force Attack",
                severity := "critical", source_ip := "185.220.101.45",
                status := "blocked" }).c = JSValue.str "#FF3B30" ∧
    (AlertRow { id := "a1", time := "2 min ago", type := "Brute Force Attack",
                severity := "critical", source_ip := "185.220.101.45",
                status := "blocked" }).caption = "Source: 185.220.101.45 · 2 min ago" ∧
    (AlertRow { id := "a1", time := "2 min ago", type := "Brute Force Attack",
                severity := "critical", source_ip := "185.220.101.45",
                status := "blocked" }).badgeBackground = JSValue.str "#30D15822" :=
  have h := alertRow_critical_blocked
    { id := "a1", time := "2 min ago", type := "Brute Force Attack",
      severity := "critical", source_ip := "185.220.101.45", status := "blocked" } rfl rfl rfl
  ⟨rfl, h.1, h.2.2.2.1.trans (by decide), h.2.2.2.2.2.1.trans (by decide)⟩

/-- The five severities of the data model get the palette colour of the same
name (`info` gets `textDim`). -/
theorem alertRow_known_severity (alert : Alert) :
    (alert.severity = "critical" → (AlertRow alert).c = JSValue.str colors.critical) ∧
    (alert.severity = "high" → (AlertRow alert).c = JSValue.str colors.high) ∧
    (alert.severity = "medium" → (AlertRow alert).c = JSValue.str colors.medium) ∧
    (alert.severity = "low" → (AlertRow alert).c = JSValue.str colors.low) ∧
    (alert.severity = "info" → (AlertRow alert).c = JSValue.str colors.textDim) := by
  refine ⟨?_, ?_, ?_, ?_, ?_⟩ <;> intro h <;> simp only [AlertRow, h] <;> decide

/-- A severity that is neither an own key of `SEVERITY_COLORS` nor a member
name of `Object.prototype` falls through to `colors.textDim`. -/
theorem alertRow_fallback (alert : Alert)
    (hsev : alert.severity ∉ ["critical", "high", "medium", "low", "info"])
    (hproto : alert.severity ∉ objectPrototypeKeys) :
    (AlertRow alert).c = JSValue.str colors.textDim := by
  simp only [List.mem_cons, List.mem_singleton, List.not_mem_nil, or_false, not_or] at hsev
  obtain ⟨h1, h2, h3, h4, h5⟩ := hsev
  simp only [AlertRow, getProperty, ownProperty, SEVERITY_COLORS, h1, h2, h3, h4, h5, if_false,
    hproto, JSValue.orElse, JSValue.truthy]
  rfl

/-- A severity that is a member name of `Object.prototype` reads the inherited
member, which is truthy, so the fallback is not taken. -/
theorem alertRow_inherited (alert : Alert) (hproto : alert.severity ∈ objectPrototypeKeys) :
    (AlertRow alert).c = JSValue.inherited alert.severity := by
  have hown : ownProperty SEVERITY_COLORS alert.severity = none := by
    simp only [objectPrototypeKeys, List.mem_cons, List.mem_singleton, List.not_mem_nil,
      or_false] at hproto
    rcases hproto with h | h | h | h | h | h | h | h | h | h | h | h <;> rw [h] <;> decide
  simp only [AlertRow, getProperty, hown, hproto, if_true, JSValue.orElse, JSValue.truthy]

/-- C9 (the code at the failing input): for the severity string "constructor",
which is none of critical, high, medium, low, info, the lookup of `AlertRow`
yields the member inherited from `Object.prototype` instead of the `textDim`
fallback, so the indicator colour `c` is not a colour string at all. -/
theorem alertRow_constructor_severity :
    "constructor" ∉ ["critical", "high", "medium", "low", "info"] ∧
    (AlertRow { id := "a7", time := "now", type := "Unclassified", severity := "constructor",
                source_ip := "10.0.0.1", status := "blocked" }).c =
      JSValue.inherited "constructor" ∧
    (AlertRow { id := "a7", time := "now", type := "Unclassified", severity := "constructor",
                source_ip := "10.0.0.1", status := "blocked" }).c ≠
      JSValue.str colors.textDim ∧
    (∀ color : String,
      (AlertRow { id := "a7", time := "now", type := "Unclassified", severity := "constructor",
                  source_ip := "10.0.0.1", status := "blocked" }).c ≠ JSValue.str color) := by
  refine ⟨by decide, by decide, by decide, ?_⟩
  intro color h
  have hc := alertRow_inherited
    { id := "a7", time := "now", type := "Unclassified", severity := "constructor",
      source_ip := "10.0.0.1", status := "blocked" } (by decide)
  rw [hc] at h
  exact JSValue.noConfusion h

/-- Counterexample for C10: the unrecognised severity "unknown" is drawn in
`textDim` (`#6B8CAE`), not in the colour of "critical" (`#FF3B30`). -/
theorem alertRow_unknown_not_critical :
    "unknown" ∉ ["critical", "high", "medium", "low", "info"] ∧
    (AlertRow { id := "a7", time := "now", type := "Unclassified", severity := "unknown",
                source_ip := "10.0.0.1", status := "blocked" }).c = JSValue.str "#6B8CAE" ∧
    (AlertRow { id := "a7", time := "now", type := "Unclassified", severity := "unknown",
                source_ip := "10.0.0.1", status := "blocked" }).c ≠
    (AlertRow { id := "a7", time := "now", type := "Unclassified", severity := "critical",
                source_ip := "10.0.0.1", status := "blocked" }).c := by
  decide

/-- C10 (amended): an unrecognised alert severity is handled by the default of
the lookup, which is `textDim`: for every severity string outside critical,
high, medium, low, info that is not a member name of `Object.prototype`,
`AlertRow` draws the indicator in `textDim`, the colour of the least severe
category "info", and not in the colour of "critical". -/
theorem alertRow_unknown_severity_textDim (alert : Alert)
    (hsev : alert.severity ∉ ["critical", "high", "medium", "low", "info"])
    (hproto : alert.severity ∉ objectPrototypeKeys) :
    (AlertRow alert).c = JSValue.str colors.textDim ∧
    (AlertRow alert).c = (AlertRow { alert with severity := "info" }).c ∧
    (AlertRow alert).c ≠ (AlertRow { alert with severity := "critical" }).c := by
  have hc := alertRow_fallback alert hsev hproto
  have hinfo : (AlertRow { alert with severity := "info" }).c = JSValue.str colors.textDim :=
    (alertRow_known_severity { alert with severity := "info" }).2.2.2.2 rfl
  have hcrit : (AlertRow { alert with severity := "critical" }).c =
      JSValue.str colors.critical :=
    (alertRow_known_severity { alert with severity := "critical" }).1 rfl
  refine ⟨hc, by rw [hc, hinfo], ?_⟩
  rw [hc, hcrit]
  decide

/-- Witness for C10 at the severity "unknown". -/
theorem alertRow_unknown_severity_textDim_witness :
    "unknown" ∉ ["critical", "high", "medium", "low", "info"] ∧
    "unknown" ∉ objectPrototypeKeys ∧
    (AlertRow { id := "a7", time := "now", type := "Unclassified", severity := "unknown",
                source_ip := "10.0.0.1", status := "blocked" }).c =
      JSValue.str colors.textDim :=
  ⟨by decide, by decide,
   (alertRow_unknown_severity_textDim
      { id := "a7", time := "now", type := "Unclassified", severity := "unknown",
        source_ip := "10.0.0.1", status := "blocked" } (by decide) (by decide)).1⟩

/-! ### Gauge range -/

/-- Counterexample for C11: the scores 200 and -50 put the needle at 270 and
-180 degrees, outside [-90, 90]. -/
theorem riskGauge_no_clamp :
    needleAngle (F64.finite 200) = F64.finite 270 ∧
    needleAngle (F64.finite (-50)) = F64.finite (-180) ∧
    (¬ ∃ a : ℚ, needleAngle (F64.finite 200) = F64.finite a ∧ -90 ≤ a ∧ a ≤ 90) ∧
    (¬ ∃ a : ℚ, needleAngle (F64.finite (-50)) = F64.finite a ∧ -90 ≤ a ∧ a ≤ 90) ∧
    (RiskGauge 200 "critical").angle = 270 ∧
    (RiskGauge (-50) "low").angle = -180 := by
  refine ⟨needleAngle_200, needleAngle_neg50, ?_, ?_, ?_, ?_⟩
  · rintro ⟨a, ha, -, h2⟩
    rw [needleAngle_200] at ha
    have h := F64.finite.inj ha
    rw [← h] at h2
    norm_num at h2
  · rintro ⟨a, ha, h1, -⟩
    rw [needleAngle_neg50] at ha
    have h := F64.finite.inj ha
    rw [← h] at h1
    norm_num at h1
  · norm_num [RiskGauge]
  · norm_num [RiskGauge]

/-- C11 (amended): `RiskGauge` does not clamp the score.  For every numeric
score within [0, 100] the needle angle it computes lies within [-90, +90]
degrees; a score outside that range is used as it comes, so that 200 gives 270
degrees and -50 gives -180 degrees. -/
theorem needleAngle_in_range :
    (∀ s : ℚ, 0 ≤ s → s ≤ 100 →
      ∃ a : ℚ, needleAngle (F64.finite s) = F64.finite a ∧ -90 ≤ a ∧ a ≤ 90) ∧
    needleAngle (F64.finite 200) = F64.finite 270 ∧
    needleAngle (F64.finite (-50)) = F64.finite (-180) := by
  refine ⟨?_, needleAngle_200, needleAngle_neg50⟩
  intro s h0 h1
  obtain ⟨ha, hlo, hhi, -⟩ := needleAngle_finite s h0 h1
  exact ⟨_, ha, hlo, hhi⟩

/-- Witness for C11 (amended) at the score 24 of the snapshot. -/
theorem needleAngle_in_range_witness :
    ∃ a : ℚ, needleAngle (F64.finite 24) = F64.finite a ∧ -90 ≤ a ∧ a ≤ 90 :=
  needleAngle_in_range.1 24 (by norm_num) (by norm_num)

/-! ### Timers -/

/-- C12: mounting starts exactly two repeating timers, the clock at 1000 ms
and the pulse toggle at 1200 ms, and the teardown returned by the effect
cancels both: on a host whose handles are fresh the pending timers after mount
and unmount are those from before the mount, and on a host without timers
none is left. -/
theorem mount_unmount_no_pending_timers (tt : TimerTable)
    (hfresh : ∀ x ∈ tt.pending, x.id < tt.nextId) :
    (mountEffect tt).2.pending =
      tt.pending ++
        [{ id := (mountEffect tt).1.t, callback := TimerCallback.setTimeNow, delay := 1000 },
         { id := (mountEffect tt).1.p, callback := TimerCallback.togglePulse, delay := 1200 }] ∧
    (mountEffect tt).2.pending.length = tt.pending.length + 2 ∧
    (mountEffect tt).1.t ≠ (mountEffect tt).1.p ∧
    (runCleanup (mountEffect tt).1 (mountEffect tt).2).pending = tt.pending ∧
    (mountEffect noTimers).2.pending.length = 2 ∧
    (runCleanup (mountEffect noTimers).1 (mountEffect noTimers).2).pending = [] := by
  refine ⟨?_, ?_, ?_, ?_, by decide, by decide⟩
  · simp [mountEffect, setInterval]
  · simp [mountEffect, setInterval]
  · simp [mountEffect, setInterval]
  · simp [runCleanup, clearInterval, mountEffect, setInterval, List.filter_append,
      List.filter_filter, List.filter_cons]
    intro a ha
    have hlt := hfresh a ha
    constructor <;> omega

/-- Witness for C12 on a host without timers. -/
theorem mount_unmount_no_pending_timers_witness :
    (∀ x ∈ noTimers.pending, x.id < noTimers.nextId) ∧
    (mountEffect noTimers).2.pending =
      [{ id := 1, callback := TimerCallback.setTimeNow, delay := 1000 },
       { id := 2, callback := TimerCallback.togglePulse, delay := 1200 }] ∧
    (runCleanup (mountEffect noTimers).1 (mountEffect noTimers).2).pending = [] :=
  ⟨by decide, by decide,
   (mount_unmount_no_pending_timers noTimers (by decide)).2.2.2.1⟩

/-! ### Invariants of the snapshot -/

/-- C13: the hard-coded snapshot satisfies the data-model invariants:
`risk_score` is an integer in [0, 100]; `daily_trend` has exactly 7 entries,
each with `0 ≤ blocked ≤ threats ≤ events`; the alert ids are pairwise
distinct; every alert severity is one of critical, high, medium, low, info and
every status one of blocked, quarantined, investigating, resolved;
`top_attack_sources` is sorted descending by count; and the threat-category
percentages sum to 100. -/
theorem mock_overview_invariants :
    (∃ n : ℕ, MOCK_OVERVIEW.risk_score = (n : ℚ) ∧ 0 ≤ n ∧ n ≤ 100) ∧
    MOCK_OVERVIEW.daily_trend.length = 7 ∧
    (∀ d ∈ MOCK_OVERVIEW.daily_trend,
      0 ≤ d.blocked ∧ d.blocked ≤ d.threats ∧ d.threats ≤ d.events) ∧
    (MOCK_OVERVIEW.recent_alerts.map Alert.id).Pairwise (fun a b => a ≠ b) ∧
    (∀ a ∈ MOCK_OVERVIEW.recent_alerts,
      a.severity ∈ ["critical", "high", "medium", "low", "info"]) ∧
    (∀ a ∈ MOCK_OVERVIEW.recent_alerts,
      a.status ∈ ["blocked", "quarantined", "investigating", "resolved"]) ∧
    MOCK_OVERVIEW.top_attack_sources.Pairwise (fun a b => b.count ≤ a.count) ∧
    (MOCK_OVERVIEW.threat_categories.map CategoryShare.percent).sum = 100 := by
  refine ⟨⟨24, ?_, by decide, by decide⟩, by decide, by decide, by decide, by decide,
    by decide, by decide, by decide⟩
  norm_num [MOCK_OVERVIEW]

/-! ### Attack-source rows -/

/-- The bar widths of the rows are the widths of `attackSourceWidths`. -/
theorem attackSourceRows_width (srcs : List SourceCount) :
    (attackSourceRows srcs).map AttackSourceRow.width = attackSourceWidths srcs := by
  cases srcs with
  | nil => rfl
  | cons hd rest => simp [attackSourceRows, attackSourceWidths]

/-- C14: the attack-source list is rendered in input order, without
re-sorting and without normalising by the maximum count: the `i`-th row shows
the `i`-th input entry, with width `count[i] / count[0] * 100` (for a first
count that is not 0, so that the quotient is a number); for the unsorted
counts 100, 200 the rows stay in that order and the second bar is 200 percent
wide. -/
theorem attackSourceRows_input_order (srcs : List SourceCount) (first : SourceCount)
    (hfirst : srcs[0]? = some first) (hpos : 0 < first.count) :
    (attackSourceRows srcs).length = srcs.length ∧
    (attackSourceRows srcs).map AttackSourceRow.country = srcs.map SourceCount.country ∧
    (attackSourceRows srcs).map AttackSourceRow.count = srcs.map SourceCount.count ∧
    (∀ (i : Nat) (src : SourceCount), srcs[i]? = some src →
      (attackSourceRows srcs)[i]? =
        some { flag := src.flag, country := src.country, count := src.count,
               width := (src.count : ℚ) / (first.count : ℚ) * 100 }) ∧
    (attackSourceRows
        [{ country := "China", count := 100, flag := "🇨🇳" },
         { country := "Russia", count := 200, flag := "🇷🇺" }]).map
      (fun r => (r.country, r.count, r.width)) = [("China", 100, 100), ("Russia", 200, 200)] ∧
    (∃ r ∈ attackSourceRows
        [{ country := "China", count := 100, flag := "🇨🇳" },
         { country := "Russia", count := 200, flag := "🇷🇺" }], 100 < r.width) := by
  have hex : (attackSourceRows
        [{ country := "China", count := 100, flag := "🇨🇳" },
         { country := "Russia", count := 200, flag := "🇷🇺" }]).map
      (fun r => (r.country, r.count, r.width)) = [("China", 100, 100), ("Russia", 200, 200)] := by
    norm_num [attackSourceRows]
  have hbig : ∃ r ∈ attackSourceRows
        [{ country := "China", count := 100, flag := "🇨🇳" },
         { country := "Russia", count := 200, flag := "🇷🇺" }], 100 < r.width := by
    refine ⟨{ flag := "🇷🇺", country := "Russia", count := 200, width := 200 }, ?_, by norm_num⟩
    norm_num [attackSourceRows]
  cases srcs with
  | nil => simp at hfirst
  | cons hd rest =>
    have hhd : hd = first := by simpa using hfirst
    subst hhd
    refine ⟨by simp [attackSourceRows], ?_, ?_, ?_, hex, hbig⟩
    · simp [attackSourceRows, Function.comp_def]
    · simp [attackSourceRows, Function.comp_def]
    · intro i src hi
      simp only [attackSourceRows, List.getElem?_map, hi, Option.map_some']

/-- Witness for C14 on the unsorted counts 100, 200. -/
theorem attackSourceRows_input_order_witness :
    (attackSourceRows
        [{ country := "China", count := 100, flag := "🇨🇳" },
         { country := "Russia", count := 200, flag := "🇷🇺" }]).map AttackSourceRow.country =
      ["China", "Russia"] ∧
    (attackSourceRows
        [{ country := "China", count := 100, flag := "🇨🇳" },
         { country := "Russia", count := 200, flag := "🇷🇺" }])[1]? =
      some { flag := "🇷🇺", country := "Russia", count := 200,
             width := ((200 : ℕ) : ℚ) / ((100 : ℕ) : ℚ) * 100 } :=
  have h := attackSourceRows_input_order
    [{ country := "China", count := 100, flag := "🇨🇳" },
     { country := "Russia", count := 200, flag := "🇷🇺" }]
    { country := "China", count := 100, flag := "🇨🇳" } rfl (by decide)
  ⟨h.2.1, h.2.2.2.1 1 { country := "Russia", count := 200, flag := "🇷🇺" } rfl⟩

/-! ### Status badge -/

/-- For the statuses blocked, quarantined and resolved the text colour, the
background and the border of the badge use one colour: `low`, `medium` and
`textDim`. -/
theorem alertRow_badge_known_status (alert : Alert) :
    (alert.status = "blocked" →
      (AlertRow alert).badgeColor = colors.low ∧
      (AlertRow alert).badgeBackground = JSValue.str (colors.low ++ "22") ∧
      (AlertRow alert).badgeBorder = "1px solid " ++ colors.low ++ "44") ∧
    (alert.status = "quarantined" →
      (AlertRow alert).badgeColor = colors.medium ∧
      (AlertRow alert).badgeBackground = JSValue.str (colors.medium ++ "22") ∧
      (AlertRow alert).badgeBorder = "1px solid " ++ colors.medium ++ "44") ∧
    (alert.status = "resolved" →
      (AlertRow alert).badgeColor = colors.textDim ∧
      (AlertRow alert).badgeBackground = JSValue.str (colors.textDim ++ "22") ∧
      (AlertRow alert).badgeBorder = "1px solid " ++ colors.textDim ++ "44") := by
  refine ⟨?_, ?_, ?_⟩ <;> intro h <;> simp only [AlertRow, h] <;> decide

/-- A status that is neither an own key of `statusBg` nor a member name of
`Object.prototype` gets `textDim` for text, background and border. -/
theorem alertRow_badge_fallback (alert : Alert)
    (hstatus : alert.status ∉ ["blocked", "quarantined", "investigating", "resolved"])
    (hproto : alert.status ∉ objectPrototypeKeys) :
    (AlertRow alert).badgeColor = colors.textDim ∧
    (AlertRow alert).badgeBackground = JSValue.str (colors.textDim ++ "22") ∧
    (AlertRow alert).badgeBorder = "1px solid " ++ colors.textDim ++ "44" := by
  simp only [List.mem_cons, List.mem_singleton, List.not_mem_nil, or_false, not_or] at hstatus
  obtain ⟨h1, h2, h3, h4⟩ := hstatus
  refine ⟨?_, ?_, ?_⟩
  · simp only [AlertRow, h1, h2, h3, if_false]
  · simp only [AlertRow, getProperty, ownProperty, statusBg, h1, h2, h3, h4, if_false, hproto,
      JSValue.orElse, JSValue.truthy]
    rfl
  · simp only [AlertRow, h1, h2, if_false]

/-- A status that is a member name of `Object.prototype` reads the inherited
member as badge background, so the background is not a colour string. -/
theorem alertRow_badge_inherited (alert : Alert)
    (hproto : alert.status ∈ objectPrototypeKeys) :
    (AlertRow alert).badgeBackground = JSValue.inherited alert.status := by
  have hown : ownProperty statusBg alert.status = none := by
    simp only [objectPrototypeKeys, List.mem_cons, List.mem_singleton, List.not_mem_nil,
      or_false] at hproto
    rcases hproto with h | h | h | h | h | h | h | h | h | h | h | h <;> rw [h] <;> decide
  simp only [AlertRow, getProperty, hown, hproto, if_true, JSValue.orElse, JSValue.truthy]

/-- C15 (the code at the failing input): for the status "investigating" (alert
a4 of the snapshot) the badge text is drawn in `high` and the background is
`high` + "22", but the border is `textDim` + "44" and not `high` + "44": the
three colours do not come from one status colour. -/
theorem alertRow_investigating_border :
    MOCK_OVERVIEW.recent_alerts[3]? =
      some { id := "a4", time := "2 hrs ago", type := "Suspicious Login",
             severity := "medium", source_ip := "192.168.1.45", status := "investigating" } ∧
    (AlertRow { id := "a4", time := "2 hrs ago", type := "Suspicious Login",
                severity := "medium", source_ip := "192.168.1.45",
                status := "investigating" }).badgeColor = colors.high ∧
    (AlertRow { id := "a4", time := "2 hrs ago", type := "Suspicious Login",
                severity := "medium", source_ip := "192.168.1.45",
                status := "investigating" }).badgeBackground =
      JSValue.str (colors.high ++ "22") ∧
    (AlertRow { id := "a4", time := "2 hrs ago", type := "Suspicious Login",
                severity := "medium", source_ip := "192.168.1.45",
                status := "investigating" }).badgeBorder =
      "1px solid " ++ colors.textDim ++ "44" ∧
    (AlertRow { id := "a4", time := "2 hrs ago", type := "Suspicious Login",
                severity := "medium", source_ip := "192.168.1.45",
                status := "investigating" }).badgeBorder ≠
      "1px solid " ++ colors.high ++ "44" := by
  refine ⟨rfl, ?_, ?_, ?_, ?_⟩ <;> decide

end AutoSOC
